import Mathlib

/-
Shallow embedding of the MapStore2 map-templates workflow
(web/client/epics section of the bundled source: errorToMessageId,
openMapTemplatesPanelEpic, mergeTemplateEpic, replaceTemplateEpic) and of the
SharePanel coordinate helpers (getLatLng, getCoordinates).

The asynchronous observable pipelines are modelled as sequential functions
with explicit error propagation (Except), as the design notes of the spec
prescribe. External collaborators (the resource API getData, the WMC parser
toMapConfig, MapUtils.mergeMapConfigs, MapUtils.saveMapConfiguration) are
taken as parameters of the runs. JS objects are modelled as structures with
Option fields for possibly-undefined members and an opaque field list for the
members the workflow never inspects.
-/

/-- Map center value as stored in the map state and in map configurations.
The workflow never inspects its content, it only tests presence and copies
it, so two opaque coordinates suffice. -/
structure Center where
  x : Int
  y : Int
deriving DecidableEq

/-- Fields of the `map` member of a map configuration that the replace epic
inspects (`zoom`, `center`, `bbox`, `maxExtent`); every other member of the
`map` object is carried opaquely in `extraFields`. A `none` field models an
absent (undefined) member. -/
structure MapInner where
  zoom : Option Int := none
  center : Option Center := none
  bbox : Option (List Int) := none
  maxExtent : Option (List Int) := none
  extraFields : List (String × String) := []
deriving DecidableEq

/-- A map configuration object: optional `map` member, optional
`widgetsConfig` member, and the remaining members (layers, groups, version,
backgrounds, ...) carried opaquely in `extraFields`. -/
structure MapConfig where
  map : Option MapInner := none
  widgetsConfig : Option (List (String × String)) := none
  extraFields : List (String × String) := []
deriving DecidableEq

/-- Template data as held in the cache or delivered by the resource API: a
string (to be parsed by the WMC converter), a structured object, or any other
JS value (undefined, null, a number, ...), which the epics treat as neither
`isString` nor `isObject` with a `map` member. -/
inductive TData where
  | str (s : String)
  | obj (c : MapConfig)
  | other
deriving DecidableEq

/-- Embeds lodash `isString(data)` as used by both template epics. -/
def jsIsString : TData → Bool
  | .str _ => true
  | _ => false

/-- Embeds the test `isObject(data) && data.map !== undefined` used by both
template epics. -/
def hasDefinedMap : TData → Bool
  | .obj c => c.map.isSome
  | _ => false

/-- A template entry of the map-templates state, as produced by
openMapTemplatesPanelEpic and consumed by the merge and replace epics. The
`data` member is undefined (modelled `TData.other`) until setTemplateData has
stored a fetch result. -/
structure Template where
  id : Int
  name : String := ""
  description : String := ""
  thumbnail : Option String := none
  dataLoaded : Bool := false
  loading : Bool := false
  data : TData := .other
deriving DecidableEq

/-- An error value as observed by the workflow. Only the optional HTTP
`status` member matters to errorToMessageId; a TypeError or a parse failure
carries none. The `e.originalError || e` unwrapping done by the epics is
modelled by the error carrying its effective status directly. -/
structure TemplateError where
  status : Option Int := none
deriving DecidableEq

/-- The actions the modelled epics emit. configureMap keeps the
configuration and the truthiness of its zoom-to-max-extent argument;
showError keeps the translated message id of the notification. -/
inductive EpicAction where
  | setTemplateLoading (id : Int) (loading : Bool)
  | setTemplateData (id : Int) (data : TData)
  | configureMap (config : MapConfig) (zoomToExtent : Bool)
  | showError (messageId : String)
  | setTemplates (templates : List Template)
  | setMapTemplatesLoaded (loaded : Bool) (errored : Bool)
deriving DecidableEq

/-- Embeds `errorToMessageId` from the epics source: a default message, a
first if statement on `status === 403` (refined by `isLoggedIn`), then a
second, separate if statement on `status === 404`. -/
def errorToMessageId (e : TemplateError) (loggedIn : Bool) : String :=
  let message := "context.errors.template.unknownError"
  let message :=
    if e.status = some 403 then
      if loggedIn then "context.errors.template.notAccessible"
      else "context.errors.template.pleaseLogin"
    else message
  let message :=
    if e.status = some 404 then "context.errors.template.notFound" else message
  message

/-- Embeds the data-resolution step shared by both template epics:
`template.dataLoaded ? Observable.of(template.data) : Observable.defer(() =>
Api.getData(id))`. The first component records whether `Api.getData` is
invoked; `fetch` is the outcome that call would deliver. -/
def resolveTemplateData (t : Template) (fetch : Except TemplateError TData) :
    Bool × Except TemplateError TData :=
  if t.dataLoaded then (false, Except.ok t.data) else (true, fetch)

/-- JS truthiness of a possibly-undefined numeric zoom value: undefined and 0
are falsy, every other number is truthy. -/
def truthyZoom : Option Int → Bool
  | none => false
  | some z => z != 0

/-- Embeds `config.map.zoom || zoom`: the left operand when it is truthy,
otherwise the right operand. -/
def jsOrZoom (a b : Option Int) : Option Int := if truthyZoom a then a else b

/-- Embeds `config.map.center || center`: a center is an object, truthy
exactly when present. -/
def jsOrCenter (a b : Option Center) : Option Center := if a.isSome then a else b

/-- Embeds the omit of the widgetsConfig key applied by the merge epic to the
merged configuration. -/
def omitWidgets (c : MapConfig) : MapConfig := { c with widgetsConfig := none }

/-- Truthiness of the third configureMap argument of the replace epic,
`!config.map.zoom && (config.map.bbox || config.map.maxExtent)`. -/
def fitToExtentFlag (m : MapInner) : Bool :=
  !truthyZoom m.zoom && (m.bbox.isSome || m.maxExtent.isSome)

/-- Modelled from the spec: `wrapStartStop` (from observables/epics, a module
of this repository that is not among the given sources) brackets a stream
with a start and a stop action; on a failure inside the stream the translated
error actions produced by the handler are emitted and the invocation still
terminates with the stop action. Spec: before starting, emit loading true; on
any failure, emit loading false and a translated error notification; on
success, emit loading false; the workflow always terminates in a
loading=false state. -/
def wrapStartStop (start stop : EpicAction) (onError : TemplateError → List EpicAction)
    (body : Except TemplateError (List EpicAction)) : List EpicAction :=
  match body with
  | .ok acts => start :: acts ++ [stop]
  | .error e => start :: onError e ++ [stop]

/-- Result of one epic invocation: either a completed invocation with its
emitted action trace, or an exception that escaped every local handler and
terminated the epic (the actions emitted before the crash are kept). -/
inductive EpicOutcome where
  | emitted (trace : List EpicAction)
  | crashed (trace : List EpicAction) (e : TemplateError)
deriving DecidableEq

/-- Actions emitted by an invocation, whether or not it crashed. -/
def outcomeTrace : EpicOutcome → List EpicAction
  | .emitted tr => tr
  | .crashed tr _ => tr

/-- True when the invocation terminated with an unhandled exception. -/
def isCrash : EpicOutcome → Bool
  | .emitted _ => false
  | .crashed _ _ => true

/-- The TypeError raised by reading `template.dataLoaded` (or `config.map.zoom`)
off an undefined value: it has no HTTP status member. -/
def typeErrorUndefined : TemplateError := {}

/-- The error handler both template epics install in wrapStartStop: a single
showError notification whose message is the translated error. -/
def templateErrorActions (loggedIn : Bool) (e : TemplateError) : List EpicAction :=
  [EpicAction.showError (errorToMessageId e loggedIn)]

/-- Embeds the configuration-resolution step of the merge epic, under its
validity guard: `isString(data) ? Observable.defer(() => toMapConfig(data,
true)) : Observable.of(data)`. The `other` case is unreachable under the
guard and yields an empty configuration. -/
def mergeConfigOf (data : TData)
    (parse : String → Except TemplateError MapConfig) :
    Except TemplateError MapConfig :=
  match data with
  | .str s => parse s
  | .obj c => Except.ok c
  | .other => Except.ok {}

/-- Embeds the body of the merge epic after data resolution: when the data is
an object with a map member or a string, resolve a configuration, cache the
data if it was freshly fetched, and dispatch configureMap of the external
merge of the current saved configuration with it, with widgetsConfig omitted
(second configureMap argument absent, hence falsy); otherwise only cache
freshly fetched data. -/
def mergeBody (t : Template) (id : Int) (currentConfig : MapConfig)
    (resolved : Except TemplateError TData)
    (parse : String → Except TemplateError MapConfig)
    (mergeMapConfigs : MapConfig → MapConfig → MapConfig) :
    Except TemplateError (List EpicAction) :=
  match resolved with
  | .error e => .error e
  | .ok data =>
    if hasDefinedMap data || jsIsString data then
      match mergeConfigOf data parse with
      | .error e => .error e
      | .ok config =>
        Except.ok ((if t.dataLoaded then [] else [EpicAction.setTemplateData id data]) ++
          [EpicAction.configureMap (omitWidgets (mergeMapConfigs currentConfig config)) false])
    else
      Except.ok (if t.dataLoaded then [] else [EpicAction.setTemplateData id data])

/-- Embeds one invocation of mergeTemplateEpic for a MERGE_TEMPLATE action
carrying `id`. When `find` yields no template, reading `template.dataLoaded`
raises a TypeError before wrapStartStop is applied, so the invocation crashes
with an empty trace. `fetch` is the outcome `Api.getData(id)` would deliver,
`parse` models `toMapConfig`, `mergeMapConfigs` the external merge utility,
and `currentConfig` the result of `MapUtils.saveMapConfiguration` on the
current state. -/
def mergeTemplateRun (templates : List Template) (id : Int) (loggedIn : Bool)
    (currentConfig : MapConfig) (fetch : Except TemplateError TData)
    (parse : String → Except TemplateError MapConfig)
    (mergeMapConfigs : MapConfig → MapConfig → MapConfig) : EpicOutcome :=
  match templates.find? (fun t => t.id == id) with
  | none => EpicOutcome.crashed [] typeErrorUndefined
  | some t =>
    EpicOutcome.emitted (wrapStartStop (EpicAction.setTemplateLoading id true)
      (EpicAction.setTemplateLoading id false)
      (templateErrorActions loggedIn)
      (mergeBody t id currentConfig (resolveTemplateData t fetch).2 parse mergeMapConfigs))

/-- Embeds the configuration-resolution step of the replace epic:
`isString(data) ? Observable.defer(() => toMapConfig(data)) :
Observable.of(isObject(data) && data.map !== undefined ? data : null)`. -/
def replaceConfigOf (data : TData)
    (parse : String → Except TemplateError MapConfig) :
    Except TemplateError (Option MapConfig) :=
  match data with
  | .str s => (parse s).map some
  | .obj c => Except.ok (if c.map.isSome then some c else none)
  | .other => Except.ok none

/-- Embeds the configuration dispatched by the replace epic,
`{...config, map: {...config.map, zoom: config.map.zoom || zoom, center:
config.map.center || center}}`, given that `config.map` is the defined map
member `m`. -/
def replacedConfig (config : MapConfig) (m : MapInner)
    (currentZoom : Option Int) (currentCenter : Option Center) : MapConfig :=
  { config with map := some { m with
      zoom := jsOrZoom m.zoom currentZoom,
      center := jsOrCenter m.center currentCenter } }

/-- Embeds the body of the replace epic after data resolution: resolve an
optional configuration, cache freshly fetched data, and when a configuration
is present dispatch it with the zoom and center fallbacks and the
fit-to-extent flag. Reading `config.map.zoom` when the parsed configuration
has no map member raises a TypeError inside the wrapped stream. -/
def replaceBody (t : Template) (id : Int) (currentZoom : Option Int)
    (currentCenter : Option Center) (resolved : Except TemplateError TData)
    (parse : String → Except TemplateError MapConfig) :
    Except TemplateError (List EpicAction) :=
  match resolved with
  | .error e => .error e
  | .ok data =>
    match replaceConfigOf data parse with
    | .error e => .error e
    | .ok none =>
      Except.ok (if t.dataLoaded then [] else [EpicAction.setTemplateData id data])
    | .ok (some config) =>
      match config.map with
      | none => .error typeErrorUndefined
      | some m =>
        Except.ok ((if t.dataLoaded then [] else [EpicAction.setTemplateData id data]) ++
          [EpicAction.configureMap (replacedConfig config m currentZoom currentCenter)
            (fitToExtentFlag m)])

/-- Embeds one invocation of replaceTemplateEpic for a REPLACE_TEMPLATE
action carrying `id`. As in the merge epic, an id matching no template makes
`template.dataLoaded` raise a TypeError before wrapStartStop is applied.
`currentZoom` and `currentCenter` are the zoom and center destructured from
the current map state. -/
def replaceTemplateRun (templates : List Template) (id : Int) (loggedIn : Bool)
    (currentZoom : Option Int) (currentCenter : Option Center)
    (fetch : Except TemplateError TData)
    (parse : String → Except TemplateError MapConfig) : EpicOutcome :=
  match templates.find? (fun t => t.id == id) with
  | none => EpicOutcome.crashed [] typeErrorUndefined
  | some t =>
    EpicOutcome.emitted (wrapStartStop (EpicAction.setTemplateLoading id true)
      (EpicAction.setTemplateLoading id false)
      (templateErrorActions loggedIn)
      (replaceBody t id currentZoom currentCenter (resolveTemplateData t fetch).2 parse))

/-- The template configuration a merge invocation resolves, when it resolves
one: the data must resolve without error, pass the map-shaped-or-string
guard, and convert without error. -/
def mergeResolvedConfig (templates : List Template) (id : Int)
    (fetch : Except TemplateError TData)
    (parse : String → Except TemplateError MapConfig) : Option MapConfig :=
  match templates.find? (fun t => t.id == id) with
  | none => none
  | some t =>
    match (resolveTemplateData t fetch).2 with
    | .error _ => none
    | .ok data =>
      if hasDefinedMap data || jsIsString data then (mergeConfigOf data parse).toOption
      else none

/-- The template configuration a replace invocation resolves, when it
resolves one. -/
def replaceResolvedConfig (templates : List Template) (id : Int)
    (fetch : Except TemplateError TData)
    (parse : String → Except TemplateError MapConfig) : Option MapConfig :=
  match templates.find? (fun t => t.id == id) with
  | none => none
  | some t =>
    match (resolveTemplateData t fetch).2 with
    | .error _ => none
    | .ok data =>
      match replaceConfigOf data parse with
      | .ok (some c) => some c
      | _ => none

/-- The map member of the configuration a replace invocation resolves. -/
def replaceResolvedMap (templates : List Template) (id : Int)
    (fetch : Except TemplateError TData)
    (parse : String → Except TemplateError MapConfig) : Option MapInner :=
  match replaceResolvedConfig templates id fetch parse with
  | some config => config.map
  | none => none

/-- The configuration a replace invocation dispatches, when it dispatches
one: the resolved configuration with the zoom and center fallbacks applied to
its map member. -/
def replaceExpectedDispatch (templates : List Template) (id : Int)
    (fetch : Except TemplateError TData)
    (parse : String → Except TemplateError MapConfig)
    (currentZoom : Option Int) (currentCenter : Option Center) : Option MapConfig :=
  match replaceResolvedConfig templates id fetch parse with
  | none => none
  | some config =>
    match config.map with
    | none => none
    | some m => some (replacedConfig config m currentZoom currentCenter)

/-- True for configureMap actions; used to count dispatched configurations. -/
def isConfigureMap : EpicAction → Bool
  | .configureMap _ _ => true
  | _ => false

/-- True for showError actions; used to count error notifications. -/
def isShowError : EpicAction → Bool
  | .showError _ => true
  | _ => false

/-- Number of configureMap actions in a trace. -/
def countConfigureMap (tr : List EpicAction) : Nat := (tr.filter isConfigureMap).length

/-- Number of showError actions in a trace. -/
def countShowError (tr : List EpicAction) : Nat := (tr.filter isShowError).length

/-- An entry of the `Attributes.attribute` list of a resource delivered by
the resource search. -/
structure ResourceAttribute where
  name : String
  value : String
deriving DecidableEq

/-- A resource as delivered by `Api.searchListByAttributes`: the id, name and
description picked by the panel epic, and the `Attributes.attribute` member,
which may be a single object, an array, or absent (named attributeMember
because the source member name attribute is a keyword in Lean). -/
structure Resource where
  id : Int
  name : String := ""
  description : String := ""
  attributeMember : Option (Sum ResourceAttribute (List ResourceAttribute)) := none
deriving DecidableEq

/-- Embeds `extractThumbnail` of openMapTemplatesPanelEpic: read
`Attributes.attribute` (default an empty object, which holds no name), wrap a
non-array into a one-element array, and take the value of the attribute named
thumbnail. -/
def extractThumbnail (r : Resource) : Option String :=
  let attributes : List ResourceAttribute :=
    match r.attributeMember with
    | none => []
    | some (Sum.inl a) => [a]
    | some (Sum.inr l) => l
  (attributes.find? (fun a => a.name == "thumbnail")).map (fun a => a.value)

/-- Embeds the per-resource template constructor of openMapTemplatesPanelEpic:
pick id, name and description, extract the thumbnail, and set dataLoaded and
loading to false; `data` stays undefined. -/
def resourceToTemplate (r : Resource) : Template :=
  { id := r.id, name := r.name, description := r.description,
    thumbnail := extractThumbnail r, dataLoaded := false, loading := false }

/-- The `ResourceList.Resource` member of the search response: absent (the
epic then defaults to an empty array), a single resource object, or an array
of resources. -/
inductive ResourceField where
  | missing
  | single (r : Resource)
  | array (rs : List Resource)
deriving DecidableEq

/-- Embeds `isArray(resourceObj) ? resourceObj : [resourceObj]` applied to
the ResourceList.Resource member read with a default empty array. -/
def resourcesOf : ResourceField → List Resource
  | .missing => []
  | .single r => [r]
  | .array rs => rs

/-- The template list built by openMapTemplatesPanelEpic from a search
response. -/
def newTemplatesOf (rf : ResourceField) : List Template :=
  (resourcesOf rf).map resourceToTemplate

/-- The actions the data branch of openMapTemplatesPanelEpic emits on a
successful search: setTemplates of the built list, then
setMapTemplatesLoaded(true) with no error. -/
def openPanelSuccessActions (rf : ResourceField) : List EpicAction :=
  [EpicAction.setTemplates (newTemplatesOf rf),
   EpicAction.setMapTemplatesLoaded true false]

/-- True when a template has dataLoaded and loading both false, the state in
which openMapTemplatesPanelEpic creates every template. -/
def templateFresh (t : Template) : Bool := !t.dataLoaded && !t.loading

/-- All templates of a list are fresh. -/
def allFresh (ts : List Template) : Bool := ts.all templateFresh

/-- A latlng member of a click point, with rational coordinates standing for
the JS numbers of the SharePanel component. -/
structure LatLngPoint where
  lat : ℚ
  lng : ℚ
deriving DecidableEq

/-- A click point as held in the SharePanel props; its latlng member may be
absent. -/
structure ClickPoint where
  latlng : Option LatLngPoint := none
deriving DecidableEq

/-- A JS value held in a lat or lon member of the coordinate object: null, a
number, or a string (the empty string in the fallbacks). -/
inductive CoordVal where
  | nullVal
  | num (q : ℚ)
  | strVal (s : String)
deriving DecidableEq

/-- The coordinate object built by getLatLng and getCoordinates. -/
structure LatLon where
  lat : CoordVal
  lon : CoordVal
deriving DecidableEq

/-- The SharePanel props that the coordinate computation reads: the click
point and the map center. -/
structure ShareProps where
  point : Option ClickPoint := none
  center : Option (ℚ × ℚ) := none
deriving DecidableEq

/-- Embeds JS Math.round, which rounds half towards positive infinity. -/
def jsRound (q : ℚ) : Int := Int.floor (q + 1/2)

/-- Embeds the longitude correction of getLatLng: round at the seventeenth
decimal, then wrap into the [-180, 180) band with
`lngCorrected - 360 * Math.floor(lngCorrected / 360 + 0.5)`. -/
def normalizeLng (lng : ℚ) : ℚ :=
  let r : ℚ := ((jsRound (lng * 100000000000000000) : Int) : ℚ) / 100000000000000000
  r - 360 * ((Int.floor (r / 360 + 1/2) : Int) : ℚ)

/-- Embeds `getLatLng` of SharePanel: `point && point.latlng || null`, then a
null lat and lon when no latlng is present, otherwise the lat and the
corrected lng. -/
def getLatLng (point : Option ClickPoint) : LatLon :=
  let latlng : Option LatLngPoint :=
    match point with
    | none => none
    | some p => p.latlng
  match latlng with
  | none => { lat := CoordVal.nullVal, lon := CoordVal.nullVal }
  | some ll => { lat := CoordVal.num ll.lat, lon := CoordVal.num (normalizeLng ll.lng) }

/-- Embeds the JS `||` between a possibly-undefined object and a fallback
object: an object is truthy, so the left operand wins whenever it is defined. -/
def jsOrLatLon (a : Option LatLon) (b : LatLon) : LatLon :=
  match a with
  | some v => v
  | none => b

/-- Embeds the destructuring `const \x7bx, y\x7d = props.center || \x7bx: "", y: ""\x7d`. -/
def centerXY : Option (ℚ × ℚ) → CoordVal × CoordVal
  | some c => (CoordVal.num c.1, CoordVal.num c.2)
  | none => (CoordVal.strVal "", CoordVal.strVal "")

/-- Embeds `getCoordinates` of SharePanel. The returned expression is
`latLng && latLng.lat !== null ? latLng : \x7blat: y, lon: x\x7d || \x7blat: "", lon: ""\x7d`;
since getLatLng always returns an object, the condition reduces to the lat
null test, and the else branch builds the object literal as the left operand
of the JS or, embedded with jsOrLatLon. -/
def getCoordinates (props : ShareProps) : LatLon :=
  let latLng := getLatLng props.point
  let xy := centerXY props.center
  if latLng.lat ≠ CoordVal.nullVal then latLng
  else jsOrLatLon (some { lat := xy.2, lon := xy.1 })
    { lat := CoordVal.strVal "", lon := CoordVal.strVal "" }

/-- The same computation as getCoordinates with the dead fallback operand of
the JS or removed; comparing the two states the dead-code claim. -/
def getCoordinatesNoFallback (props : ShareProps) : LatLon :=
  let latLng := getLatLng props.point
  let xy := centerXY props.center
  if latLng.lat ≠ CoordVal.nullVal then latLng
  else { lat := xy.2, lon := xy.1 }

/-- Concrete template fixture with its data already loaded and cached. -/
def tplCached : Template := { id := 1, dataLoaded := true, data := TData.other }

/-- Concrete fetch outcome used by witnesses. -/
def fetchStubA : Except TemplateError TData := Except.ok TData.other

/-- Concrete failing fetch outcome used by witnesses. -/
def fetchStubB : Except TemplateError TData := Except.error { status := some 404 }

/-- Concrete parser stub used by witnesses. -/
def parseStub : String → Except TemplateError MapConfig :=
  fun _ => Except.error { status := none }

/-- Concrete merge-utility stub used by witnesses. -/
def mergeStub : MapConfig → MapConfig → MapConfig := fun a _ => a

/-- Concrete empty current configuration used by witnesses. -/
def cfg0 : MapConfig := {}

theorem mergeTemplateRun_found {templates : List Template} {id : Int} {t : Template}
    (h : templates.find? (fun u => u.id == id) = some t)
    (loggedIn : Bool) (currentConfig : MapConfig) (fetch : Except TemplateError TData)
    (parse : String → Except TemplateError MapConfig)
    (mergeMapConfigs : MapConfig → MapConfig → MapConfig) :
    mergeTemplateRun templates id loggedIn currentConfig fetch parse mergeMapConfigs =
      EpicOutcome.emitted (wrapStartStop (EpicAction.setTemplateLoading id true)
        (EpicAction.setTemplateLoading id false)
        (templateErrorActions loggedIn)
        (mergeBody t id currentConfig (resolveTemplateData t fetch).2 parse mergeMapConfigs)) := by
  unfold mergeTemplateRun
  rw [h]

theorem replaceTemplateRun_found {templates : List Template} {id : Int} {t : Template}
    (h : templates.find? (fun u => u.id == id) = some t)
    (loggedIn : Bool) (currentZoom : Option Int) (currentCenter : Option Center)
    (fetch : Except TemplateError TData)
    (parse : String → Except TemplateError MapConfig) :
    replaceTemplateRun templates id loggedIn currentZoom currentCenter fetch parse =
      EpicOutcome.emitted (wrapStartStop (EpicAction.setTemplateLoading id true)
        (EpicAction.setTemplateLoading id false)
        (templateErrorActions loggedIn)
        (replaceBody t id currentZoom currentCenter (resolveTemplateData t fetch).2 parse)) := by
  unfold replaceTemplateRun
  rw [h]

/-- C2: for every error outcome of the template workflow, the
error-to-message translation returns the please-log-in message id when the
HTTP status is 403 and the user is not authenticated, not-accessible when the
status is 403 and the user is authenticated, not-found when the status is
404, and the unknown-error id for any other error. -/
theorem c2_error_translation (e : TemplateError) (loggedIn : Bool) :
    errorToMessageId e loggedIn =
      if e.status = some 403 then
        (if loggedIn then "context.errors.template.notAccessible"
         else "context.errors.template.pleaseLogin")
      else if e.status = some 404 then "context.errors.template.notFound"
      else "context.errors.template.unknownError" := by
  unfold errorToMessageId
  rcases e with ⟨st⟩
  by_cases h3 : st = some 403 <;> by_cases h4 : st = some 404 <;>
    simp [h3, h4] at *

/-- C9: the fallback right operand of the JS or in getCoordinates is dead
code: for every input props the left operand is an object literal, hence
truthy, so removing the fallback does not change the function. Note that
getCoordinates can still return a value structurally equal to the fallback
object, but it is then the object literal built from the destructured empty
strings, never the right operand of the or. -/
theorem c9_fallback_dead_code (props : ShareProps) :
    getCoordinates props = getCoordinatesNoFallback props := by
  unfold getCoordinates getCoordinatesNoFallback jsOrLatLon
  rfl

/-- C1: for every MergeTemplate or ReplaceTemplate invocation whose template
has dataLoaded true in the cache, the data-resolution step does not invoke
the resource API getData (first component false) and yields the cached data,
and both epic runs are independent of whatever a fetch would have returned; a
fetch is issued only when dataLoaded is false. -/
theorem c1_cached_data_no_fetch (templates : List Template) (id : Int)
    (t : Template) (loggedIn : Bool) (currentConfig : MapConfig)
    (currentZoom : Option Int) (currentCenter : Option Center)
    (fetch fetchAlt : Except TemplateError TData)
    (parse : String → Except TemplateError MapConfig)
    (mergeMapConfigs : MapConfig → MapConfig → MapConfig)
    (hfind : templates.find? (fun u => u.id == id) = some t)
    (hloaded : t.dataLoaded = true) :
    resolveTemplateData t fetch = (false, Except.ok t.data) ∧
    mergeTemplateRun templates id loggedIn currentConfig fetch parse mergeMapConfigs =
      mergeTemplateRun templates id loggedIn currentConfig fetchAlt parse mergeMapConfigs ∧
    replaceTemplateRun templates id loggedIn currentZoom currentCenter fetch parse =
      replaceTemplateRun templates id loggedIn currentZoom currentCenter fetchAlt parse := by
  have hres : ∀ f : Except TemplateError TData,
      resolveTemplateData t f = (false, Except.ok t.data) := by
    intro f
    unfold resolveTemplateData
    rw [hloaded]
    simp
  refine ⟨hres fetch, ?_, ?_⟩
  · rw [mergeTemplateRun_found hfind, mergeTemplateRun_found hfind,
      hres fetch, hres fetchAlt]
  · rw [replaceTemplateRun_found hfind, replaceTemplateRun_found hfind,
      hres fetch, hres fetchAlt]

theorem c1_cached_data_no_fetch_witness :
    resolveTemplateData tplCached fetchStubA = (false, Except.ok tplCached.data) ∧
    mergeTemplateRun [tplCached] 1 false cfg0 fetchStubA parseStub mergeStub =
      mergeTemplateRun [tplCached] 1 false cfg0 fetchStubB parseStub mergeStub ∧
    replaceTemplateRun [tplCached] 1 false (some 5) none fetchStubA parseStub =
      replaceTemplateRun [tplCached] 1 false (some 5) none fetchStubB parseStub :=
  c1_cached_data_no_fetch [tplCached] 1 tplCached false cfg0 (some 5) none
    fetchStubA fetchStubB parseStub mergeStub (by decide) (by decide)

/-- C3: for every successful merge operation, the configuration dispatched
via ConfigureMap equals the merge (by the external merge utility) of the
current saved configuration with the resolved template configuration, with
the widgetsConfig field removed from the result; the second configureMap
argument is null, hence falsy. -/
theorem c3_merge_drops_widgets (templates : List Template) (id : Int)
    (loggedIn : Bool) (currentConfig : MapConfig)
    (fetch : Except TemplateError TData)
    (parse : String → Except TemplateError MapConfig)
    (mergeMapConfigs : MapConfig → MapConfig → MapConfig)
    (c : MapConfig) (z : Bool)
    (hmem : EpicAction.configureMap c z ∈
      outcomeTrace (mergeTemplateRun templates id loggedIn currentConfig fetch parse mergeMapConfigs)) :
    (mergeResolvedConfig templates id fetch parse).isSome = true ∧
    c = omitWidgets (mergeMapConfigs currentConfig
          ((mergeResolvedConfig templates id fetch parse).getD cfg0)) ∧
    c.widgetsConfig = none ∧ z = false := by
  cases hf : templates.find? (fun u => u.id == id) with
  | none =>
    unfold mergeTemplateRun at hmem
    rw [hf] at hmem
    simp [outcomeTrace] at hmem
  | some t =>
    rw [mergeTemplateRun_found hf] at hmem
    cases hr : (resolveTemplateData t fetch).2 with
    | error e =>
      rw [hr] at hmem
      simp [mergeBody, wrapStartStop, templateErrorActions, outcomeTrace] at hmem
    | ok data =>
      rw [hr] at hmem
      unfold mergeResolvedConfig
      simp only [hf, hr]
      cases hguard : hasDefinedMap data || jsIsString data with
      | false =>
        simp [mergeBody, hguard, wrapStartStop, outcomeTrace] at hmem
      | true =>
        cases hc : mergeConfigOf data parse with
        | error e =>
          simp [mergeBody, hguard, hc, wrapStartStop, templateErrorActions,
            outcomeTrace] at hmem
        | ok config =>
          simp only [mergeBody, hguard, hc, if_true, wrapStartStop,
            outcomeTrace] at hmem
          have hcz : c = omitWidgets (mergeMapConfigs currentConfig config) ∧ z = false := by
            cases hdl : t.dataLoaded <;> simp [hdl] at hmem <;>
              exact ⟨hmem.1, hmem.2⟩
          refine ⟨by simp [hguard, hc, Except.toOption], ?_, ?_, hcz.2⟩
          · rw [hcz.1]
            simp [hguard, hc, Except.toOption]
          · rw [hcz.1]
            simp [omitWidgets]

/-- Concrete template configuration with a map member and a widgetsConfig
member, used by witnesses. -/
def cfgWithMap : MapConfig :=
  { map := some { zoom := some 5 }, widgetsConfig := some [("widgetA", "1")],
    extraFields := [("layers", "L")] }

/-- Concrete cached template whose data is a map-shaped object, used by
witnesses. -/
def tplObj : Template := { id := 2, dataLoaded := true, data := TData.obj cfgWithMap }

theorem c3_merge_drops_widgets_witness :
    (mergeResolvedConfig [tplObj] 2 fetchStubA parseStub).isSome = true ∧
    omitWidgets (mergeStub cfg0 cfgWithMap) =
      omitWidgets (mergeStub cfg0
        ((mergeResolvedConfig [tplObj] 2 fetchStubA parseStub).getD cfg0)) ∧
    (omitWidgets (mergeStub cfg0 cfgWithMap)).widgetsConfig = none ∧
    false = false :=
  c3_merge_drops_widgets [tplObj] 2 false cfg0 fetchStubA parseStub mergeStub
    (omitWidgets (mergeStub cfg0 cfgWithMap)) false (by decide)

/-- C4: for every merge invocation whose resolved template data is neither a
string nor an object with a defined map field, the trace is just the loading
bracket around the optional data-caching action: no configureMap action is
emitted and no showError notification is emitted (the error branch is not
entered). -/
theorem c4_merge_invalid_data_no_change (templates : List Template) (id : Int)
    (loggedIn : Bool) (currentConfig : MapConfig) (t : Template) (d : TData)
    (fetch : Except TemplateError TData)
    (parse : String → Except TemplateError MapConfig)
    (mergeMapConfigs : MapConfig → MapConfig → MapConfig)
    (hfind : templates.find? (fun u => u.id == id) = some t)
    (hres : (resolveTemplateData t fetch).2 = Except.ok d)
    (hstr : jsIsString d = false)
    (hmap : hasDefinedMap d = false) :
    mergeTemplateRun templates id loggedIn currentConfig fetch parse mergeMapConfigs =
      EpicOutcome.emitted (EpicAction.setTemplateLoading id true ::
        (if t.dataLoaded then [] else [EpicAction.setTemplateData id d]) ++
        [EpicAction.setTemplateLoading id false]) ∧
    countConfigureMap (outcomeTrace
      (mergeTemplateRun templates id loggedIn currentConfig fetch parse mergeMapConfigs)) = 0 ∧
    countShowError (outcomeTrace
      (mergeTemplateRun templates id loggedIn currentConfig fetch parse mergeMapConfigs)) = 0 := by
  have hrun : mergeTemplateRun templates id loggedIn currentConfig fetch parse mergeMapConfigs =
      EpicOutcome.emitted (EpicAction.setTemplateLoading id true ::
        (if t.dataLoaded then [] else [EpicAction.setTemplateData id d]) ++
        [EpicAction.setTemplateLoading id false]) := by
    rw [mergeTemplateRun_found hfind, hres]
    simp [mergeBody, hmap, hstr, wrapStartStop]
  refine ⟨hrun, ?_, ?_⟩ <;> rw [hrun] <;> cases t.dataLoaded <;>
    simp [outcomeTrace, countConfigureMap, countShowError, isConfigureMap, isShowError]

theorem c4_merge_invalid_data_no_change_witness :
    mergeTemplateRun [tplCached] 1 false cfg0 fetchStubA parseStub mergeStub =
      EpicOutcome.emitted (EpicAction.setTemplateLoading 1 true ::
        (if tplCached.dataLoaded then [] else [EpicAction.setTemplateData 1 TData.other]) ++
        [EpicAction.setTemplateLoading 1 false]) ∧
    countConfigureMap (outcomeTrace
      (mergeTemplateRun [tplCached] 1 false cfg0 fetchStubA parseStub mergeStub)) = 0 ∧
    countShowError (outcomeTrace
      (mergeTemplateRun [tplCached] 1 false cfg0 fetchStubA parseStub mergeStub)) = 0 :=
  c4_merge_invalid_data_no_change [tplCached] 1 false cfg0 tplCached TData.other
    fetchStubA parseStub mergeStub (by decide) rfl (by decide) (by decide)

/-- Default map member used only as the irrelevant getD fallback in
statements that have already established presence. -/
def inner0 : MapInner := {}

/-- C5 amended: for every replace operation that dispatches a configuration,
the dispatched configuration is the resolved template configuration
wholesale, except that the current zoom is used when the template zoom is
absent or JS-falsy (zero), and the current center is used when the template
center is absent; no other field of the current map is carried over. The
closed form is replaceExpectedDispatch, built on replacedConfig, jsOrZoom and
jsOrCenter. -/
theorem c5_replace_fallback_amended (templates : List Template) (id : Int)
    (loggedIn : Bool) (currentZoom : Option Int) (currentCenter : Option Center)
    (fetch : Except TemplateError TData)
    (parse : String → Except TemplateError MapConfig)
    (c : MapConfig) (z : Bool)
    (hmem : EpicAction.configureMap c z ∈
      outcomeTrace (replaceTemplateRun templates id loggedIn currentZoom currentCenter fetch parse)) :
    replaceExpectedDispatch templates id fetch parse currentZoom currentCenter = some c := by
  cases hf : templates.find? (fun u => u.id == id) with
  | none =>
    unfold replaceTemplateRun at hmem
    rw [hf] at hmem
    simp [outcomeTrace] at hmem
  | some t =>
    rw [replaceTemplateRun_found hf] at hmem
    unfold replaceExpectedDispatch replaceResolvedConfig
    cases hr : (resolveTemplateData t fetch).2 with
    | error e =>
      rw [hr] at hmem
      simp [replaceBody, wrapStartStop, templateErrorActions, outcomeTrace] at hmem
    | ok data =>
      rw [hr] at hmem
      simp only [hf, hr]
      cases hc : replaceConfigOf data parse with
      | error e =>
        simp [replaceBody, hc, wrapStartStop, templateErrorActions, outcomeTrace] at hmem
      | ok copt =>
        cases copt with
        | none =>
          simp [replaceBody, hc, wrapStartStop, outcomeTrace] at hmem
        | some config =>
          simp only [hc]
          cases hm : config.map with
          | none =>
            simp [replaceBody, hc, hm, wrapStartStop, templateErrorActions,
              outcomeTrace] at hmem
          | some m =>
            simp only [replaceBody, hc, hm, wrapStartStop, outcomeTrace] at hmem
            have hcz : c = replacedConfig config m currentZoom currentCenter ∧
                z = fitToExtentFlag m := by
              cases hdl : t.dataLoaded <;> simp [hdl] at hmem <;>
                exact ⟨hmem.1, hmem.2⟩
            simp [hm, hcz.1]

/-- Concrete template configuration whose map carries zoom 0 (present but
JS-falsy) and a center; used for the C5 correction. -/
def cfgZoomZero : MapConfig :=
  { map := some { zoom := some 0, center := some { x := 1, y := 2 } },
    extraFields := [("layers", "L")] }

/-- Concrete cached template holding cfgZoomZero. -/
def tplZoomZero : Template := { id := 3, dataLoaded := true, data := TData.obj cfgZoomZero }

/-- The configuration the replace epic dispatches for cfgZoomZero with
current zoom 7: zoom replaced by 7 although the template zoom 0 is present. -/
def cfgZoomZeroDispatched : MapConfig :=
  { map := some { zoom := some 7, center := some { x := 1, y := 2 } },
    extraFields := [("layers", "L")] }

/-- Concrete template configuration whose map carries zoom 0 and a bbox;
used for the C6 correction. -/
def cfgZoomZeroBbox : MapConfig :=
  { map := some { zoom := some 0, bbox := some [0, 0, 1, 1] } }

/-- Concrete cached template holding cfgZoomZeroBbox. -/
def tplZoomZeroBbox : Template :=
  { id := 4, dataLoaded := true, data := TData.obj cfgZoomZeroBbox }

/-- C5 counterexample: the claim says the fallback applies only when zoom is
omitted, but a template whose map carries zoom 0 (present, JS-falsy) also
gets the current zoom: with current zoom 7 the dispatched configuration
carries zoom 7 although the template configuration carries zoom 0, so the
dispatched configuration is not the template configuration wholesale. -/
theorem c5_counterexample :
    replaceTemplateRun
        [tplZoomZero] 3 false (some 7)
        (some { x := 9, y := 9 }) fetchStubA parseStub =
      EpicOutcome.emitted [EpicAction.setTemplateLoading 3 true,
        EpicAction.configureMap
          cfgZoomZeroDispatched false,
        EpicAction.setTemplateLoading 3 false] ∧
    ((some 7 : Option Int) ≠ some 0) := by
  decide

theorem c5_replace_fallback_amended_witness :
    replaceExpectedDispatch
        [tplZoomZero] 3 fetchStubA parseStub (some 7)
        (some { x := 9, y := 9 }) =
      some cfgZoomZeroDispatched :=
  c5_replace_fallback_amended
    [tplZoomZero] 3 false (some 7)
    (some { x := 9, y := 9 }) fetchStubA parseStub
    cfgZoomZeroDispatched false (by decide)

/-- C6 amended: for every replace operation that dispatches a configuration,
the configureMap action carries a truthy fit-to-extent flag if and only if
the resolved map member has a JS-falsy zoom (absent or zero) and has a bbox
or a maxExtent. -/
theorem c6_fit_to_extent_amended (templates : List Template) (id : Int)
    (loggedIn : Bool) (currentZoom : Option Int) (currentCenter : Option Center)
    (fetch : Except TemplateError TData)
    (parse : String → Except TemplateError MapConfig)
    (c : MapConfig) (z : Bool)
    (hmem : EpicAction.configureMap c z ∈
      outcomeTrace (replaceTemplateRun templates id loggedIn currentZoom currentCenter fetch parse)) :
    (replaceResolvedMap templates id fetch parse).isSome = true ∧
    z = fitToExtentFlag ((replaceResolvedMap templates id fetch parse).getD inner0) ∧
    (z = true ↔
      (truthyZoom ((replaceResolvedMap templates id fetch parse).getD inner0).zoom = false ∧
       (((replaceResolvedMap templates id fetch parse).getD inner0).bbox.isSome = true ∨
        ((replaceResolvedMap templates id fetch parse).getD inner0).maxExtent.isSome = true))) := by
  cases hf : templates.find? (fun u => u.id == id) with
  | none =>
    unfold replaceTemplateRun at hmem
    rw [hf] at hmem
    simp [outcomeTrace] at hmem
  | some t =>
    rw [replaceTemplateRun_found hf] at hmem
    unfold replaceResolvedMap replaceResolvedConfig
    cases hr : (resolveTemplateData t fetch).2 with
    | error e =>
      rw [hr] at hmem
      simp [replaceBody, wrapStartStop, templateErrorActions, outcomeTrace] at hmem
    | ok data =>
      rw [hr] at hmem
      simp only [hf, hr]
      cases hc : replaceConfigOf data parse with
      | error e =>
        simp [replaceBody, hc, wrapStartStop, templateErrorActions, outcomeTrace] at hmem
      | ok copt =>
        cases copt with
        | none =>
          simp [replaceBody, hc, wrapStartStop, outcomeTrace] at hmem
        | some config =>
          simp only [hc]
          cases hm : config.map with
          | none =>
            simp [replaceBody, hc, hm, wrapStartStop, templateErrorActions,
              outcomeTrace] at hmem
          | some m =>
            simp only [replaceBody, hc, hm, wrapStartStop, outcomeTrace] at hmem
            have hcz : c = replacedConfig config m currentZoom currentCenter ∧
                z = fitToExtentFlag m := by
              cases hdl : t.dataLoaded <;> simp [hdl] at hmem <;>
                exact ⟨hmem.1, hmem.2⟩
            refine ⟨by simp [hm], ?_, ?_⟩
            · simp [hm, hcz.2]
            · rw [hcz.2]
              simp [hm, fitToExtentFlag]

/-- C6 counterexample: the claim requires a truthy flag only when the map has
no zoom, but a template map with zoom 0 (present, JS-falsy) and a bbox gets a
truthy fit-to-extent flag: the dispatched configureMap carries flag true
although the template map has a zoom member. -/
theorem c6_counterexample :
    replaceTemplateRun
        [tplZoomZeroBbox]
        4 false (some 4) none fetchStubA parseStub =
      EpicOutcome.emitted [EpicAction.setTemplateLoading 4 true,
        EpicAction.configureMap { map := some { zoom := some 4, bbox := some [0, 0, 1, 1] } } true,
        EpicAction.setTemplateLoading 4 false] ∧
    ((some 0 : Option Int).isSome = true) := by
  decide

theorem c6_fit_to_extent_amended_witness :
    (replaceResolvedMap
        [tplZoomZeroBbox]
        4 fetchStubA parseStub).isSome = true ∧
    true = fitToExtentFlag ((replaceResolvedMap
        [tplZoomZeroBbox]
        4 fetchStubA parseStub).getD inner0) ∧
    (true = true ↔
      (truthyZoom ((replaceResolvedMap
          [tplZoomZeroBbox]
          4 fetchStubA parseStub).getD inner0).zoom = false ∧
       (((replaceResolvedMap
          [tplZoomZeroBbox]
          4 fetchStubA parseStub).getD inner0).bbox.isSome = true ∨
        ((replaceResolvedMap
          [tplZoomZeroBbox]
          4 fetchStubA parseStub).getD inner0).maxExtent.isSome = true))) :=
  c6_fit_to_extent_amended
    [tplZoomZeroBbox]
    4 false (some 4) none fetchStubA parseStub
    { map := some { zoom := some 4, bbox := some [0, 0, 1, 1] } } true (by decide)

/-- C7 failing input: a merge invocation whose id (99) matches no template in
the list. Reading dataLoaded off the undefined result of find raises a
TypeError before wrapStartStop is applied, so the invocation crashes with an
empty trace: it does not begin with SetTemplateLoading(99, true) and it never
emits a SetTemplateLoading(99, false), contradicting the claimed loading
discipline (the spec requires every invocation to end with exactly one
loading=false emission). -/
theorem c7_unknown_id_no_loading_bracket :
    mergeTemplateRun [tplCached] 99 false cfg0 fetchStubA parseStub mergeStub =
      EpicOutcome.crashed [] typeErrorUndefined ∧
    outcomeTrace (mergeTemplateRun [tplCached] 99 false cfg0 fetchStubA parseStub mergeStub) = [] :=
  ⟨rfl, rfl⟩

/-- C8 failing input: a replace invocation whose id (99) matches no template
in the list. The TypeError raised by reading dataLoaded off undefined escapes
every local handler: the epic terminates with an unhandled exception and no
showError notification is emitted, contradicting the claim that every error
is recovered locally into a user-facing notification. -/
theorem c8_unknown_id_unhandled_crash :
    isCrash (replaceTemplateRun [tplCached] 99 false (some 5) none fetchStubA parseStub) = true ∧
    countShowError (outcomeTrace
      (replaceTemplateRun [tplCached] 99 false (some 5) none fetchStubA parseStub)) = 0 :=
  ⟨rfl, rfl⟩

/-- C10: every template in the list emitted by SetTemplates on panel open
has dataLoaded false and loading false (allFresh), the emitted value is the
list built from the wrapped resources, and a single resource object is
wrapped into a one-element list before mapping. -/
theorem c10_new_templates_invariant (rf : ResourceField) (r : Resource)
    (ts : List Template)
    (hmem : EpicAction.setTemplates ts ∈ openPanelSuccessActions rf) :
    allFresh ts = true ∧ ts = newTemplatesOf rf ∧
    newTemplatesOf (ResourceField.single r) = [resourceToTemplate r] := by
  have hts : ts = newTemplatesOf rf := by
    simp [openPanelSuccessActions] at hmem
    exact hmem
  subst hts
  refine ⟨?_, rfl, rfl⟩
  unfold allFresh newTemplatesOf
  rw [List.all_eq_true]
  intro t ht
  rw [List.mem_map] at ht
  obtain ⟨res, _, rfl⟩ := ht
  rfl

/-- Concrete resource fixture with a thumbnail attribute. -/
def res0 : Resource :=
  { id := 7, name := "tpl", description := "d",
    attributeMember := some (Sum.inl { name := "thumbnail", value := "tn" }) }

theorem c10_new_templates_invariant_witness :
    allFresh (newTemplatesOf (ResourceField.single res0)) = true ∧
    newTemplatesOf (ResourceField.single res0) = newTemplatesOf (ResourceField.single res0) ∧
    newTemplatesOf (ResourceField.single res0) = [resourceToTemplate res0] :=
  c10_new_templates_invariant (ResourceField.single res0) res0
    (newTemplatesOf (ResourceField.single res0)) (by decide)
